import Mathlib

/-!
Verification of the VMFS datastore resource lifecycle
(`vsphere/resource_vsphere_vmfs_datastore.go`).

The Go file orchestrates create / read / update / delete / import for a
multi-extent VMFS datastore against a remote vSphere endpoint.  The external
collaborators (host datastore system lookup, disk-spec resolution, the remote
create / extend / remove / rename / move / property-fetch primitives) are not
part of this source file; they appear here as oracle fields of per-operation
environment records, and each resource function is embedded as a pure function
of its environment that returns the Go function's result together with the
trace of mutating remote calls it issued.
-/

/-- Classifiable error returned by a remote primitive.  The source classifies
errors with the external helpers `isResourceInUseError` and
`isManagedObjectNotFoundError`; the three constructors carry the error's
rendered message (Go errors stringify via `%s`). -/
inductive RemoteError where
  | resourceInUse (m : String)
  | notFound (m : String)
  | other (m : String)
  deriving DecidableEq, Repr

/-- The message an error renders as (`%s` formatting of a Go error). -/
def RemoteError.msg : RemoteError → String
  | .resourceInUse m => m
  | .notFound m => m
  | .other m => m

/-- Modelled from the spec: the external error-classification helper
`isResourceInUseError` ("resource in use / busy" classification). -/
def isResourceInUseError : RemoteError → Bool
  | .resourceInUse _ => true
  | _ => false

/-- Modelled from the spec: the external error-classification helper
`isManagedObjectNotFoundError` ("not-found" classification). -/
def isManagedObjectNotFoundError : RemoteError → Bool
  | .notFound _ => true
  | _ => false

/-- Result of a Go resource function: normal return, error return carrying the
formatted message, or a runtime panic (an unchecked type assertion failing). -/
inductive GoResult (α : Type) where
  | ok (a : α)
  | err (m : String)
  | panics
  deriving DecidableEq, Repr

/-- Forget a result's value, keeping the error/panic outcome (the Go caller
`return resourceVSphereVmfsDatastoreRead(d, meta)` propagates only that). -/
def GoResult.toUnit : GoResult α → GoResult Unit
  | .ok _ => .ok ()
  | .err m => .err m
  | .panics => .panics

/-- One mutating remote call issued by the resource functions. -/
inductive RemoteCall where
  | createCall
  | moveCall
  | renameCall
  | extendCall (disk : String)
  | removeCall
  deriving DecidableEq, Repr

/-- Number of compensating-removal attempts in a call trace. -/
def countRemoveCalls : List RemoteCall → Nat
  | [] => 0
  | .removeCall :: cs => countRemoveCalls cs + 1
  | _ :: cs => countRemoveCalls cs

/-- Number of remote extend attempts in a call trace. -/
def countExtendCalls : List RemoteCall → Nat
  | [] => 0
  | .extendCall _ :: cs => countExtendCalls cs + 1
  | _ :: cs => countExtendCalls cs

/-- Go `%q` formatting of a string (quotation; escaping of special characters
inside the identifiers at play here does not arise). -/
def quoteGo (s : String) : String := "\"" ++ s ++ "\""

/-- Substring containment on the rendered error text. -/
def strContains (hay needle : String) : Prop :=
  ∃ a b, hay.data = a ++ needle.data ++ b

/-- Modelled from the spec: the ExtentPlanner's planning artifact ("a candidate
disk identifier plus the creation or extension specification"); the source only
ever sets `spec.Vmfs.VolumeName` on it before passing it back to the gateway. -/
structure DiskSpec where
  diskName : String
  vmfsVolumeName : String
  deriving DecidableEq, Repr

/-- A fetched datastore object: its managed object reference value
(`ds.Reference().Value`) and its inventory path. -/
structure DatastoreRef where
  value : String
  inventoryPath : String
  deriving DecidableEq, Repr

/-- The type-specific info of fetched datastore properties: VMFS info carrying
the extent disk names (`*types.VmfsDatastoreInfo`), or some other datastore
type's info, on which the read path's type assertion panics. -/
inductive DatastoreInfo where
  | vmfs (extents : List String)
  | otherInfo
  deriving DecidableEq, Repr

/-- Fetched datastore properties: the summary's volume type string, the
type-specific info, and the keys of the host-mount list (`mount.Key.Value`). -/
structure DatastoreProps where
  summaryType : String
  info : DatastoreInfo
  hostMountKeys : List String
  deriving DecidableEq, Repr

/-- The govmomi constant `HostFileSystemVolumeFileSystemTypeVMFS`. -/
def hostFileSystemVolumeFileSystemTypeVMFS : String := "VMFS"

/-- Oracles for the remote reads `resourceVSphereVmfsDatastoreRead` performs:
`datastoreFromID`, `datastoreProperties`, `flattenDatastoreSummary`,
`rootPathParticleDatastore.SplitRelativeFolder` and `d.Set("disks", ...)`. -/
structure ReadEnv where
  datastoreFromID : Except RemoteError DatastoreRef
  datastoreProperties : Except RemoteError DatastoreProps
  flattenDatastoreSummary : Except RemoteError Unit
  splitRelativeFolder : Except RemoteError String
  setDisks : Except RemoteError Unit

/-- `resourceVSphereVmfsDatastoreRead`: fetch the object, fetch its properties,
flatten the summary, derive the folder, then read the extent disk names out of
`props.Info.(*types.VmfsDatastoreInfo)` — an unchecked type assertion that
panics when the info is not VMFS-specific.  Returns the disk list it set. -/
def resourceVSphereVmfsDatastoreRead (env : ReadEnv) : GoResult (List String) :=
  match env.datastoreFromID with
  | .error e => .err ("cannot find datastore: " ++ e.msg)
  | .ok ds =>
    match env.datastoreProperties with
    | .error e => .err ("could not get properties for datastore: " ++ e.msg)
    | .ok props =>
      match env.flattenDatastoreSummary with
      | .error e => .err e.msg
      | .ok _ =>
        match env.splitRelativeFolder with
        | .error e =>
          .err ("error parsing datastore path " ++ quoteGo ds.inventoryPath ++ ": " ++ e.msg)
        | .ok _ =>
          match props.info with
          | .otherInfo => .panics
          | .vmfs extents =>
            match env.setDisks with
            | .error e => .err e.msg
            | .ok _ => .ok extents

/-! ## Creation (`resourceVSphereVmfsDatastoreCreate`) -/

/-- The first line of `formatVmfsDatastoreCreateRollbackErrorFolder` and of the
other dangling-resource formats. -/
def danglingWarning : String := "WARNING: Dangling resource!"

/-- The closing manual-cleanup instruction of the dangling-resource formats. -/
def manualCleanup : String :=
  "You will need to remove this datastore manually before trying again."

/-- The constant `formatVmfsDatastoreCreateRollbackErrorFolder` applied to its
`%q`/`%s`/`%s` arguments (folder, move error, removal error). -/
def formatVmfsDatastoreCreateRollbackErrorFolder (folder errMove errRem : String) : String :=
  "\n" ++ danglingWarning ++
  "\nThere was an error moving your datastore to the desired folder " ++ quoteGo folder ++
  ":\n" ++ errMove ++
  "\nAdditionally, there was an error removing the created datastore:\n" ++ errRem ++
  "\n" ++ manualCleanup ++ "\n"

/-- The constant `formatVmfsDatastoreCreateRollbackErrorUpdate` applied to its
`%q`/`%s`/`%s` arguments (disk, extension error, removal error). -/
def formatVmfsDatastoreCreateRollbackErrorUpdate (disk errExtend errRem : String) : String :=
  "\n" ++ danglingWarning ++
  "\nThere was an error extending your datastore with disk: " ++ quoteGo disk ++
  ":\n" ++ errExtend ++
  "\nAdditionally, there was an error removing the created datastore:\n" ++ errRem ++
  "\n" ++ manualCleanup ++ "\n"

/-- The constant `formatVmfsDatastoreCreateRollbackErrorProperties` applied to
its `%s`/`%s` arguments.  The source declares this format but no code path of
the file uses it: the post-create read-back returns its error directly. -/
def formatVmfsDatastoreCreateRollbackErrorProperties (errProps errRem : String) : String :=
  "\n" ++ danglingWarning ++
  "\nAfter creating the datastore, there was an error fetching its properties:\n" ++ errProps ++
  "\nAdditionally, there was an error removing the created datastore:\n" ++ errRem ++
  "\n" ++ manualCleanup ++ "\n"

/-- Modelled from the spec: the external helper `pathIsEmpty` ("If a target
folder was requested and is non-empty, attempt to move ..."). -/
def pathIsEmpty (p : String) : Bool := p = ""

/-- Oracles for the remote operations the create path performs.  The remote
primitives that can answer differently per disk are keyed by their argument. -/
structure CreateEnv where
  hostDatastoreSystem : Except RemoteError Unit
  diskSpecForCreate : String → Except RemoteError DiskSpec
  createVmfsDatastore : DiskSpec → Except RemoteError DatastoreRef
  moveDatastoreToFolder : Except RemoteError Unit
  diskSpecForExtend : String → Except RemoteError DiskSpec
  extendVmfsDatastore : DiskSpec → Except RemoteError Unit
  removeDatastore : Except RemoteError Unit
  readEnv : ReadEnv

/-- Outcome of a create-path step: the Go result, the mutating remote calls
issued (in order), and whether a datastore exists remotely afterwards. -/
structure StepOut (α : Type) where
  result : GoResult α
  calls : List RemoteCall
  dsExists : Bool
  deriving DecidableEq, Repr

/-- The folder-placement step of creation (lines 123–135): skipped for an empty
folder; on move failure, compensating removal, with the dangling-resource
format when the removal also fails. -/
def createMoveStep (env : CreateEnv) (folder : String) : StepOut Unit :=
  if pathIsEmpty folder then ⟨.ok (), [], true⟩
  else
    match env.moveDatastoreToFolder with
    | .ok _ => ⟨.ok (), [.moveCall], true⟩
    | .error e =>
      match env.removeDatastore with
      | .error remErr =>
        ⟨.err (formatVmfsDatastoreCreateRollbackErrorFolder folder e.msg remErr.msg),
          [.moveCall, .removeCall], true⟩
      | .ok _ =>
        ⟨.err ("could not move datastore to folder " ++ quoteGo folder ++ ": " ++ e.msg),
          [.moveCall, .removeCall], false⟩

/-- The remaining-disks loop of creation (lines 138–161): for each disk after
the first, resolve an extend spec and extend; on either failure, compensating
removal, with the dangling-resource format when the removal also fails. -/
def createExtendLoop (env : CreateEnv) : List String → StepOut Unit
  | [] => ⟨.ok (), [], true⟩
  | disk :: rest =>
    match env.diskSpecForExtend disk with
    | .error e =>
      match env.removeDatastore with
      | .error remErr =>
        ⟨.err (formatVmfsDatastoreCreateRollbackErrorUpdate disk e.msg remErr.msg),
          [.removeCall], true⟩
      | .ok _ =>
        ⟨.err ("error fetching datastore extend spec for disk " ++ quoteGo disk ++ ": " ++ e.msg),
          [.removeCall], false⟩
    | .ok spec =>
      match env.extendVmfsDatastore spec with
      | .error e =>
        match env.removeDatastore with
        | .error remErr =>
          ⟨.err (formatVmfsDatastoreCreateRollbackErrorUpdate disk e.msg remErr.msg),
            [.extendCall disk, .removeCall], true⟩
        | .ok _ =>
          ⟨.err ("error extending datastore with disk " ++ quoteGo disk ++ ": " ++ e.msg),
            [.extendCall disk, .removeCall], false⟩
      | .ok _ =>
        let out := createExtendLoop env rest
        ⟨out.result, .extendCall disk :: out.calls, out.dsExists⟩

/-- The tail of creation after a successful folder step: the remaining-disks
loop, then `d.SetId` and the final read-back, whose error (if any) is returned
directly, with no compensating removal. -/
def createFinish (env : CreateEnv) (rest : List String) : StepOut Unit :=
  let out := createExtendLoop env rest
  match out.result with
  | .ok _ => ⟨(resourceVSphereVmfsDatastoreRead env.readEnv).toUnit, out.calls, true⟩
  | r => ⟨r, out.calls, out.dsExists⟩

/-- `resourceVSphereVmfsDatastoreCreate`: host datastore-system lookup, create
spec for the first disk (`disks[0]` — a panic on an empty list), volume name
set on the spec, remote create, folder placement, remaining-disk extension,
read-back. -/
def resourceVSphereVmfsDatastoreCreate (env : CreateEnv) (nm folder : String)
    (disks : List String) : StepOut Unit :=
  match env.hostDatastoreSystem with
  | .error e => ⟨.err ("error loading host datastore system: " ++ e.msg), [], false⟩
  | .ok _ =>
    match disks with
    | [] => ⟨.panics, [], false⟩
    | disk :: rest =>
      match env.diskSpecForCreate disk with
      | .error e => ⟨.err e.msg, [], false⟩
      | .ok spec0 =>
        match env.createVmfsDatastore { spec0 with vmfsVolumeName := nm } with
        | .error e =>
          ⟨.err ("error creating datastore with disk " ++ disk ++ ": " ++ e.msg),
            [.createCall], false⟩
        | .ok _ =>
          match createMoveStep env folder with
          | ⟨.ok _, mc, _⟩ =>
            let fin := createFinish env rest
            ⟨fin.result, .createCall :: (mc ++ fin.calls), fin.dsExists⟩
          | ⟨.err m, mc, ex⟩ => ⟨.err m, .createCall :: mc, ex⟩
          | ⟨.panics, mc, ex⟩ => ⟨.panics, .createCall :: mc, ex⟩

/-! ## Update (`resourceVSphereVmfsDatastoreUpdate`) -/

/-- Oracles for the remote operations the update path performs. -/
structure UpdateEnv where
  hostDatastoreSystem : Except RemoteError Unit
  datastoreFromID : Except RemoteError DatastoreRef
  renameObject : Except RemoteError Unit
  moveDatastoreToFolder : Except RemoteError Unit
  diskSpecForExtend : String → Except RemoteError DiskSpec
  extendVmfsDatastore : DiskSpec → Except RemoteError Unit
  readEnv : ReadEnv

/-- The disk-addition loop of update (lines 249–268): every desired disk absent
from the observed list is extended onto the datastore; spec-resolution and
extend errors are returned raw and stop the loop. -/
def updateAddLoop (env : UpdateEnv) (old : List String) :
    List String → GoResult Unit × List RemoteCall
  | [] => (.ok (), [])
  | v1 :: rest =>
    if old.contains v1 then updateAddLoop env old rest
    else
      match env.diskSpecForExtend v1 with
      | .error e => (.err e.msg, [])
      | .ok spec =>
        match env.extendVmfsDatastore spec with
        | .error e => (.err e.msg, [.extendCall v1])
        | .ok _ =>
          let r := updateAddLoop env old rest
          (r.1, .extendCall v1 :: r.2)

/-- `resourceVSphereVmfsDatastoreUpdate`: lookups, rename on name drift, move
on folder drift, the shrink veto (first observed disk missing from the desired
list fails the update), the addition loop, then the read-back.  `oldX`/`newX`
are the previously observed and the desired values (`d.GetChange`); a step is
performed exactly when they differ (`d.HasChange`). -/
def resourceVSphereVmfsDatastoreUpdate (env : UpdateEnv)
    (oldName newName oldFolder newFolder : String)
    (oldDisks newDisks : List String) : GoResult Unit × List RemoteCall :=
  match env.hostDatastoreSystem with
  | .error e => (.err ("error loading host datastore system: " ++ e.msg), [])
  | .ok _ =>
    match env.datastoreFromID with
    | .error e => (.err ("cannot find datastore: " ++ e.msg), [])
    | .ok _ =>
      let renameStep : GoResult Unit × List RemoteCall :=
        if newName = oldName then (.ok (), [])
        else
          match env.renameObject with
          | .error e => (.err e.msg, [.renameCall])
          | .ok _ => (.ok (), [.renameCall])
      match renameStep with
      | (.ok _, cs1) =>
        let moveStep : GoResult Unit × List RemoteCall :=
          if newFolder = oldFolder then (.ok (), [])
          else
            match env.moveDatastoreToFolder with
            | .error e =>
              (.err ("Could not move datastore to folder " ++ quoteGo newFolder ++ ": " ++ e.msg),
                [.moveCall])
            | .ok _ => (.ok (), [.moveCall])
        match moveStep with
        | (.ok _, cs2) =>
          match oldDisks.find? (fun v1 => ! newDisks.contains v1) with
          | some v1 =>
            (.err ("disk " ++ v1 ++ " found in state but not config (removal of disks is not supported)"),
              cs1 ++ cs2)
          | none =>
            match updateAddLoop env oldDisks newDisks with
            | (.ok _, cs3) =>
              ((resourceVSphereVmfsDatastoreRead env.readEnv).toUnit, cs1 ++ cs2 ++ cs3)
            | (r, cs3) => (r, cs1 ++ cs2 ++ cs3)
        | (r, cs2) => (r, cs1 ++ cs2)
      | (r, cs1) => (r, cs1)

/-! ## Deletion (`resourceVSphereVmfsDatastoreDelete`) -/

/-- State-name constants of the two deletion loops (lines 15–23). -/
def retryDeletePending : String := "retryDeletePending"

/-- Target state of the retry-on-conflict loop. -/
def retryDeleteCompleted : String := "retryDeleteCompleted"

/-- Error state of the retry-on-conflict loop. -/
def retryDeleteError : String := "retryDeleteError"

/-- Pending state of the wait-for-invisibility loop. -/
def waitForDeletePending : String := "waitForDeletePending"

/-- Target state of the wait-for-invisibility loop. -/
def waitForDeleteCompleted : String := "waitForDeleteCompleted"

/-- Error state of the wait-for-invisibility loop. -/
def waitForDeleteError : String := "waitForDeleteError"

/-- How a bounded polling loop ends. -/
inductive LoopResult where
  | completed
  | errored (e : RemoteError)
  | timedOut
  deriving DecidableEq, Repr

/-- Oracles for the remote operations the delete path performs.  The two
polling primitives are sequences indexed by tick number, since the remote
answer may change while the loop runs; `retryFuel`/`waitFuel` are each loop's
bounded timeout measured in ticks. -/
structure DeleteEnv where
  hostDatastoreSystem : Except RemoteError Unit
  datastoreFromID : Except RemoteError DatastoreRef
  removeDatastore : Nat → Except RemoteError Unit
  datastoreFromIDWait : Nat → Except RemoteError DatastoreRef
  retryFuel : Nat
  waitFuel : Nat

/-- Modelled from the spec: the external state-change waiter driving each
convergence loop ("a bounded polling state machine that repeats an operation or
check until a target state is observed or a timeout elapses").  Each tick calls
`refresh`; a returned error aborts the loop with it; reaching the target state
completes; any other state stays pending until the fuel (the bounded timeout in
ticks) runs out.  Also returns the number of ticks taken. -/
def waitForState (refresh : Nat → String × Option RemoteError) (target : String) :
    Nat → Nat → LoopResult × Nat
  | _, 0 => (.timedOut, 0)
  | k, fuel + 1 =>
    match refresh k with
    | (_, some e) => (.errored e, 1)
    | (st, none) =>
      if st = target then (.completed, 1)
      else
        let r := waitForState refresh target (k + 1) fuel
        (r.1, r.2 + 1)

/-- `deleteRetryFunc` (lines 296–308): one tick of the retry-on-conflict loop.
A removal failure classified resource-in-use is absorbed and reports pending; any
other failure reports the error state with the error; success reports the
completed state. -/
def deleteRetryFunc (env : DeleteEnv) (k : Nat) : String × Option RemoteError :=
  match env.removeDatastore k with
  | .error e =>
    if isResourceInUseError e then (retryDeletePending, none)
    else (retryDeleteError, some e)
  | .ok _ => (retryDeleteCompleted, none)

/-- `waitForDeleteFunc` (lines 327–338): one tick of the wait-for-invisibility
loop.  A fetch failure classified not-found reports the completed state; any
other fetch failure reports the error state with the error; a successful fetch
(object still visible) reports pending. -/
def waitForDeleteFunc (env : DeleteEnv) (k : Nat) : String × Option RemoteError :=
  match env.datastoreFromIDWait k with
  | .error e =>
    if isManagedObjectNotFoundError e then (waitForDeleteCompleted, none)
    else (waitForDeleteError, some e)
  | .ok _ => (waitForDeletePending, none)

/-- Modelled from the spec: the message the external waiter reports when the
bounded timeout elapses while still pending ("Exceeding the timeout while still
pending is reported as a failure"). -/
def waiterTimeoutMsg : String := "timeout while waiting for state"

/-- The retry-on-conflict loop of deletion, started at tick 0. -/
def deleteRetryLoop (env : DeleteEnv) : LoopResult × Nat :=
  waitForState (deleteRetryFunc env) retryDeleteCompleted 0 env.retryFuel

/-- The wait-for-invisibility loop of deletion, started at tick 0. -/
def waitForDeleteLoop (env : DeleteEnv) : LoopResult × Nat :=
  waitForState (waitForDeleteFunc env) waitForDeleteCompleted 0 env.waitFuel

/-- `resourceVSphereVmfsDatastoreDelete`: lookups (a failed initial fetch
returns a cannot-find error at once), then the retry-on-conflict loop, then the
wait-for-invisibility loop.  Returns the result together with the number of
ticks each loop ran. -/
def resourceVSphereVmfsDatastoreDelete (env : DeleteEnv) : GoResult Unit × Nat × Nat :=
  match env.hostDatastoreSystem with
  | .error e => (.err ("error loading host datastore system: " ++ e.msg), 0, 0)
  | .ok _ =>
    match env.datastoreFromID with
    | .error e => (.err ("cannot find datastore: " ++ e.msg), 0, 0)
    | .ok _ =>
      match deleteRetryLoop env with
      | (.errored e, n1) => (.err ("could not delete datastore: " ++ e.msg), n1, 0)
      | (.timedOut, n1) => (.err ("could not delete datastore: " ++ waiterTimeoutMsg), n1, 0)
      | (.completed, n1) =>
        match waitForDeleteLoop env with
        | (.errored e, n2) =>
          (.err ("error waiting for datastore to delete: " ++ e.msg), n1, n2)
        | (.timedOut, n2) =>
          (.err ("error waiting for datastore to delete: " ++ waiterTimeoutMsg), n1, n2)
        | (.completed, n2) => (.ok (), n1, n2)

/-! ## Import (`resourceVSphereVmfsDatastoreImport`) -/

/-- Go `strings.SplitN(s, ":", 2)` on the characters of `s`: everything up to
the first colon, then the whole remainder; one single part when `s` has no
colon. -/
def goSplitN2Aux (acc : List Char) : List Char → List String
  | [] => [⟨acc⟩]
  | c :: cs => if c = ':' then [⟨acc⟩, ⟨cs⟩] else goSplitN2Aux (acc ++ [c]) cs

/-- Go `strings.SplitN(s, ":", 2)`. -/
def goSplitN2 (s : String) : List String := goSplitN2Aux [] s.data

/-- Oracles for the remote reads the import path performs. -/
structure ImportEnv where
  datastoreFromID : String → Except RemoteError DatastoreRef
  datastoreProperties : Except RemoteError DatastoreProps

/-- The import path after the identifier format check (lines 367–396): fetch by
datastore ID, fetch properties, verify the summary's volume type is VMFS,
verify the host ID appears among the host-mount keys, then seed the resource
identifier and host reference.  Also counts the remote calls made. -/
def importValidate (env : ImportEnv) (id hsID : String) :
    GoResult (String × String) × Nat :=
  match env.datastoreFromID id with
  | .error e => (.err ("cannot find datastore: " ++ e.msg), 1)
  | .ok _ =>
    match env.datastoreProperties with
    | .error e => (.err ("could not get properties for datastore: " ++ e.msg), 2)
    | .ok props =>
      if props.summaryType ≠ hostFileSystemVolumeFileSystemTypeVMFS then
        (.err ("datastore ID " ++ quoteGo id ++ " is not a VMFS datastore"), 2)
      else if props.hostMountKeys.contains hsID then
        (.ok (id, hsID), 2)
      else
        (.err ("configured host_system_id " ++ quoteGo hsID ++ " not found as a mounted host on datastore"), 2)

/-- `resourceVSphereVmfsDatastoreImport`: split the composite identifier on the
first colon; anything but two parts is a format error made before any remote
call; then validate and seed.  On success the returned pair is the seeded
resource identifier and host reference. -/
def resourceVSphereVmfsDatastoreImport (env : ImportEnv) (importId : String) :
    GoResult (String × String) × Nat :=
  match goSplitN2 importId with
  | [id, hsID] => importValidate env id hsID
  | _ => (.err "please supply the ID in the following format: DATASTOREID:HOSTID", 0)


/-! ## Helper lemmas -/

/-- Appending strings appends their character data. -/
theorem strData_append (a b : String) : (a ++ b).data = a.data ++ b.data := rfl

/-- A string contains its right append factor. -/
theorem strContains_takeRight (p x : String) : strContains (p ++ x) x :=
  ⟨p.data, [], by simp [strData_append]⟩

/-- A string contains its left append factor. -/
theorem strContains_takeLeft (x s : String) : strContains (x ++ s) x :=
  ⟨[], s.data, by simp [strData_append]⟩

/-- Containment survives appending on the right. -/
theorem strContains_extendRight (hay x t : String) (h : strContains hay x) :
    strContains (hay ++ t) x := by
  obtain ⟨a, b, hab⟩ := h
  exact ⟨a, b ++ t.data, by simp [strData_append, hab]⟩

/-- Containment survives appending on the left. -/
theorem strContains_extendLeft (hay x t : String) (h : strContains hay x) :
    strContains (t ++ hay) x := by
  obtain ⟨a, b, hab⟩ := h
  exact ⟨t.data ++ a, b, by simp [strData_append, hab]⟩

/-- Containment is transitive. -/
theorem strContains_trans (a b c : String) (h1 : strContains a b) (h2 : strContains b c) :
    strContains a c := by
  obtain ⟨p1, q1, h1⟩ := h1
  obtain ⟨p2, q2, h2⟩ := h2
  exact ⟨p1 ++ p2, q2 ++ q1, by simp [h1, h2]⟩

/-- A Go-quoted string contains the quoted text. -/
theorem strContains_quoteGo (s : String) : strContains (quoteGo s) s :=
  strContains_extendRight _ _ _ (strContains_takeRight _ _)

/-- Trace counting distributes over appends (removals). -/
theorem countRemoveCalls_append (a b : List RemoteCall) :
    countRemoveCalls (a ++ b) = countRemoveCalls a + countRemoveCalls b := by
  induction a with
  | nil => simp [countRemoveCalls]
  | cons c cs ih => cases c <;> simp [countRemoveCalls, ih, Nat.add_right_comm]

/-- Trace counting distributes over appends (extends). -/
theorem countExtendCalls_append (a b : List RemoteCall) :
    countExtendCalls (a ++ b) = countExtendCalls a + countExtendCalls b := by
  induction a with
  | nil => simp [countExtendCalls]
  | cons c cs ih => cases c <;> simp [countExtendCalls, ih, Nat.add_right_comm]

/-- A trace of pure extend calls has no removals. -/
theorem countRemoveCalls_map_extend (l : List String) :
    countRemoveCalls (l.map RemoteCall.extendCall) = 0 := by
  induction l with
  | nil => rfl
  | cons d ds ih => simp [countRemoveCalls, ih]

/-- Creation's remaining-disks loop walks past disks whose spec resolution and
remote extension both succeed, recording their extend calls. -/
theorem createExtendLoop_append_ok (env : CreateEnv) (pre rest : List String)
    (h : ∀ d ∈ pre, ∃ s, env.diskSpecForExtend d = .ok s ∧ env.extendVmfsDatastore s = .ok ()) :
    createExtendLoop env (pre ++ rest) =
      ⟨(createExtendLoop env rest).result,
        pre.map RemoteCall.extendCall ++ (createExtendLoop env rest).calls,
        (createExtendLoop env rest).dsExists⟩ := by
  induction pre with
  | nil => simp
  | cons d ds ih =>
    obtain ⟨s, hs, he⟩ := h d (List.mem_cons_self d ds)
    have ih2 := ih (fun x hx => h x (List.mem_cons_of_mem d hx))
    simp [createExtendLoop, hs, he, ih2]

/-- Update's addition loop does nothing when every desired disk is already
observed. -/
theorem updateAddLoop_all_found (env : UpdateEnv) (old : List String) (l : List String)
    (h : ∀ v ∈ l, old.contains v = true) :
    updateAddLoop env old l = (.ok (), []) := by
  induction l with
  | nil => rfl
  | cons v vs ih =>
    have hv : v ∈ old := List.elem_iff.mp (h v (List.mem_cons_self v vs))
    simp [updateAddLoop, hv, ih (fun x hx => h x (List.mem_cons_of_mem v hx))]

/-- A polling loop whose refresh forever reports a non-target state without an
error exhausts its fuel and times out. -/
theorem waitForState_timeout (refresh : Nat → String × Option RemoteError) (target : String)
    (h : ∀ k, (refresh k).2 = none ∧ (refresh k).1 ≠ target) :
    ∀ fuel k, waitForState refresh target k fuel = (.timedOut, fuel) := by
  intro fuel
  induction fuel with
  | zero => intro k; rfl
  | succ n ih =>
    intro k
    obtain ⟨h1, h2⟩ := h k
    rcases hr : refresh k with ⟨st, e⟩
    rw [hr] at h1 h2
    cases e with
    | some e => simp at h1
    | none => simp [waitForState, hr, h2, ih]

/-- Go `SplitN` on a colon-free character list yields the one whole part. -/
theorem goSplitN2Aux_no_colon (l : List Char) (h : l.contains ':' = false) :
    ∀ acc, goSplitN2Aux acc l = [⟨acc ++ l⟩] := by
  induction l with
  | nil => intro acc; simp [goSplitN2Aux]
  | cons c cs ih =>
    intro acc
    simp only [List.contains_cons, Bool.or_eq_false_iff] at h
    have hc : ¬ c = ':' := by
      intro hc
      simp [hc] at h
    simp [goSplitN2Aux, hc, ih h.2, List.append_assoc]

/-- Go `SplitN` on a character list holding a colon yields two parts. -/
theorem goSplitN2Aux_colon (l : List Char) (h : l.contains ':' = true) :
    ∀ acc, ∃ a b, goSplitN2Aux acc l = [a, b] := by
  induction l with
  | nil => simp [List.contains] at h
  | cons c cs ih =>
    intro acc
    by_cases hc : c = ':'
    · exact ⟨⟨acc⟩, ⟨cs⟩, by simp [goSplitN2Aux, hc]⟩
    · simp only [List.contains_cons, Bool.or_eq_true_iff] at h
      rcases h with h | h
      · exact absurd (by simpa using h : ':' = c).symm hc
      · simpa [goSplitN2Aux, hc] using ih h (acc ++ [c])

/-- The post-format import path always issues at least one remote call. -/
theorem importValidate_calls_pos (env : ImportEnv) (id hsID : String) :
    1 ≤ (importValidate env id hsID).2 := by
  rcases h1 : env.datastoreFromID id with e | ds
  · simp [importValidate, h1]
  · rcases h2 : env.datastoreProperties with e | props
    · simp [importValidate, h1, h2]
    · by_cases ht : props.summaryType = hostFileSystemVolumeFileSystemTypeVMFS <;>
        by_cases hm : hsID ∈ props.hostMountKeys <;>
          simp [importValidate, h1, h2, ht, hm]

/-! ## Claim theorems: read panic (C9), delete fast-fail (C10), import (C7, C8) -/

/-- C9: the read projection performs an unchecked type assertion on the fetched
properties' type-specific info: whenever that info is not VMFS-specific, the
read panics rather than returning an error value; and, unlike import, read
never validates the volume type — with VMFS-specific info it succeeds whatever
the summary's type string says. -/
theorem read_unchecked_type_assertion (env : ReadEnv) (ds : DatastoreRef) (props : DatastoreProps)
    (hFetch : env.datastoreFromID = .ok ds)
    (hProps : env.datastoreProperties = .ok props)
    (hFlatten : env.flattenDatastoreSummary = .ok ())
    (hSplit : ∃ f, env.splitRelativeFolder = .ok f) :
    (props.info = .otherInfo → resourceVSphereVmfsDatastoreRead env = .panics) ∧
    (∀ extents, props.info = .vmfs extents → env.setDisks = .ok () →
      resourceVSphereVmfsDatastoreRead env = .ok extents) := by
  obtain ⟨f, hf⟩ := hSplit
  constructor
  · intro hInfo
    simp [resourceVSphereVmfsDatastoreRead, hFetch, hProps, hFlatten, hf, hInfo]
  · intro extents hInfo hSet
    simp [resourceVSphereVmfsDatastoreRead, hFetch, hProps, hFlatten, hf, hInfo, hSet]

/-- A concrete non-VMFS datastore environment for the read path. -/
def readPanicEnvC9 : ReadEnv :=
  ⟨.ok ⟨"ds-1", "/dc1/datastore/ds-1"⟩, .ok ⟨"NFS", .otherInfo, []⟩, .ok (), .ok "f", .ok ()⟩

/-- Witness for C9: read of a concretely non-VMFS datastore panics. -/
theorem read_unchecked_type_assertion_witness :
    resourceVSphereVmfsDatastoreRead readPanicEnvC9 = .panics :=
  (read_unchecked_type_assertion readPanicEnvC9 ⟨"ds-1", "/dc1/datastore/ds-1"⟩
    ⟨"NFS", .otherInfo, []⟩ rfl rfl rfl ⟨"f", rfl⟩).1 rfl

/-- C10: deleting an already-absent datastore is not an idempotent success:
whenever the initial fetch of the datastore by its recorded identifier fails
(a not-found classification included), the delete returns the cannot-find
error immediately, with zero ticks of either polling loop. -/
theorem delete_missing_datastore_fails_fast (env : DeleteEnv) (e : RemoteError)
    (hHost : env.hostDatastoreSystem = .ok ())
    (hFetch : env.datastoreFromID = .error e) :
    resourceVSphereVmfsDatastoreDelete env
      = (.err ("cannot find datastore: " ++ e.msg), 0, 0) := by
  simp [resourceVSphereVmfsDatastoreDelete, hHost, hFetch]

/-- A delete environment whose datastore is already absent. -/
def deleteEnvC10 : DeleteEnv :=
  { hostDatastoreSystem := .ok ()
    datastoreFromID := .error (.notFound "gone")
    removeDatastore := fun _ => .ok ()
    datastoreFromIDWait := fun _ => .error (.notFound "gone")
    retryFuel := 5
    waitFuel := 5 }

/-- Witness for C10 at a concretely absent datastore. -/
theorem delete_missing_datastore_fails_fast_witness :
    resourceVSphereVmfsDatastoreDelete deleteEnvC10
      = (.err ("cannot find datastore: " ++ "gone"), 0, 0) :=
  delete_missing_datastore_fails_fast deleteEnvC10 (.notFound "gone") rfl rfl

/-- C8: importing `"ds-1:host-9"` — a non-VMFS volume type fails naming the
type mismatch; `host-9` absent from the host-mount keys fails naming the
missing membership; both checks passing seeds identifier `"ds-1"` and host
reference `"host-9"`. -/
theorem import_validation_ds1_host9 (env : ImportEnv) (ds : DatastoreRef) (props : DatastoreProps)
    (hFetch : env.datastoreFromID "ds-1" = .ok ds)
    (hProps : env.datastoreProperties = .ok props) :
    (props.summaryType ≠ hostFileSystemVolumeFileSystemTypeVMFS →
      resourceVSphereVmfsDatastoreImport env "ds-1:host-9"
        = (.err ("datastore ID " ++ quoteGo "ds-1" ++ " is not a VMFS datastore"), 2)) ∧
    (props.summaryType = hostFileSystemVolumeFileSystemTypeVMFS →
      "host-9" ∉ props.hostMountKeys →
      resourceVSphereVmfsDatastoreImport env "ds-1:host-9"
        = (.err ("configured host_system_id " ++ quoteGo "host-9" ++ " not found as a mounted host on datastore"), 2)) ∧
    (props.summaryType = hostFileSystemVolumeFileSystemTypeVMFS →
      "host-9" ∈ props.hostMountKeys →
      resourceVSphereVmfsDatastoreImport env "ds-1:host-9" = (.ok ("ds-1", "host-9"), 2)) := by
  have hsplit : goSplitN2 "ds-1:host-9" = ["ds-1", "host-9"] := by decide
  refine ⟨?_, ?_, ?_⟩
  · intro ht
    simp [resourceVSphereVmfsDatastoreImport, hsplit, importValidate, hFetch, hProps, ht]
  · intro ht hm
    simp [resourceVSphereVmfsDatastoreImport, hsplit, importValidate, hFetch, hProps, ht, hm]
  · intro ht hm
    simp [resourceVSphereVmfsDatastoreImport, hsplit, importValidate, hFetch, hProps, ht, hm]

/-- A concrete import environment where both import checks pass for
`"ds-1:host-9"`. -/
def importEnvC8 : ImportEnv :=
  ⟨fun _ => .ok ⟨"ds-1", "/dc1/datastore/ds-1"⟩, .ok ⟨"VMFS", .vmfs [], ["host-3", "host-9"]⟩⟩

/-- Witness for C8: the passing tier seeds the identifier and host reference. -/
theorem import_validation_ds1_host9_witness :
    resourceVSphereVmfsDatastoreImport importEnvC8 "ds-1:host-9" = (.ok ("ds-1", "host-9"), 2) :=
  (import_validation_ds1_host9 importEnvC8 ⟨"ds-1", "/dc1/datastore/ds-1"⟩
    ⟨"VMFS", .vmfs [], ["host-3", "host-9"]⟩ rfl rfl).2.2 rfl (by decide)

/-- C7 (amended): the import resolver splits on the first separator and only
requires the split to yield two segments, i.e. that the identifier hold at
least one colon: a colon-free identifier fails with the format error naming
the expected shape before any remote call; an identifier holding a colon
always passes the format check — empty segments are not rejected — and remote
resolution then begins (at least one remote call is made). -/
theorem import_format_split (env : ImportEnv) (s : String) :
    (s.data.contains ':' = false →
      resourceVSphereVmfsDatastoreImport env s
        = (.err "please supply the ID in the following format: DATASTOREID:HOSTID", 0)) ∧
    (s.data.contains ':' = true →
      ∃ id hsID, goSplitN2 s = [id, hsID] ∧
        resourceVSphereVmfsDatastoreImport env s = importValidate env id hsID ∧
        1 ≤ (resourceVSphereVmfsDatastoreImport env s).2) := by
  constructor
  · intro h
    have hone := goSplitN2Aux_no_colon s.data h []
    simp [resourceVSphereVmfsDatastoreImport, goSplitN2, hone]
  · intro h
    obtain ⟨a, b, hab⟩ := goSplitN2Aux_colon s.data h []
    have hsp : goSplitN2 s = [a, b] := hab
    refine ⟨a, b, hsp, ?_, ?_⟩
    · simp [resourceVSphereVmfsDatastoreImport, hsp]
    · simp [resourceVSphereVmfsDatastoreImport, hsp, importValidate_calls_pos]

/-- A concrete import environment whose remote fetch fails. -/
def importEnvC7 : ImportEnv :=
  ⟨fun _ => .error (.other "x"), .ok ⟨"VMFS", .vmfs [], []⟩⟩

/-- Counterexample to C7 as stated: the identifier `":"` has two empty
segments — a shape the claim says fails with a format error before any remote
call — yet the format check passes, one remote call is made, and the returned
error is the remote cannot-find error, not the format error. -/
theorem import_empty_segments_pass_cex :
    resourceVSphereVmfsDatastoreImport importEnvC7 ":" = (.err ("cannot find datastore: x"), 1) ∧
    (GoResult.err ("cannot find datastore: x") : GoResult (String × String))
      ≠ .err "please supply the ID in the following format: DATASTOREID:HOSTID" := by
  constructor
  · decide
  · decide

/-- Witness for C7 (amended): a colon-free identifier is rejected with the
format error and no remote call. -/
theorem import_format_split_witness :
    resourceVSphereVmfsDatastoreImport importEnvC7 "abc"
      = (.err "please supply the ID in the following format: DATASTOREID:HOSTID", 0) :=
  (import_format_split importEnvC7 "abc").1 (by decide)

/-! ## Claim theorems: update (C3, C4) -/

/-- C4: an update whose desired name, folder and disk list equal the
previously observed values performs zero remote mutating calls — no rename, no
move, no extend, no remove — and succeeds (given the lookups and the final
read-back succeed). -/
theorem update_noop_no_mutation (env : UpdateEnv) (nm folder : String) (disks : List String)
    (hHost : env.hostDatastoreSystem = .ok ())
    (hFetch : ∃ ds, env.datastoreFromID = .ok ds)
    (hRead : ∃ xs, resourceVSphereVmfsDatastoreRead env.readEnv = .ok xs) :
    resourceVSphereVmfsDatastoreUpdate env nm nm folder folder disks disks = (.ok (), []) := by
  obtain ⟨ds, hds⟩ := hFetch
  obtain ⟨xs, hxs⟩ := hRead
  have hfind : disks.find? (fun v1 => ! decide (v1 ∈ disks)) = none := by
    rw [List.find?_eq_none]
    intro x hx
    simp [hx]
  have hadd : updateAddLoop env disks disks = (.ok (), []) :=
    updateAddLoop_all_found env disks disks (fun v hv => List.elem_iff.mpr hv)
  simp [resourceVSphereVmfsDatastoreUpdate, hHost, hds, hfind, hadd, hxs, GoResult.toUnit]

/-- An update environment whose mutating primitives all fail: an update that
touches none of them is the only way to succeed against it. -/
def updateEnvC4 : UpdateEnv :=
  { hostDatastoreSystem := .ok ()
    datastoreFromID := .ok ⟨"ds-1", "/dc1/datastore/ds-1"⟩
    renameObject := .error (.other "rename called")
    moveDatastoreToFolder := .error (.other "move called")
    diskSpecForExtend := fun _ => .error (.other "extend spec called")
    extendVmfsDatastore := fun _ => .error (.other "extend called")
    readEnv := ⟨.ok ⟨"ds-1", "/dc1/datastore/ds-1"⟩, .ok ⟨"VMFS", .vmfs ["d1", "d2"], ["h1"]⟩,
      .ok (), .ok "f", .ok ()⟩ }

/-- Witness for C4: the no-drift update succeeds with an empty call trace even
though every mutating primitive of the environment would fail if touched. -/
theorem update_noop_no_mutation_witness :
    resourceVSphereVmfsDatastoreUpdate updateEnvC4 "n" "n" "f" "f" ["d1", "d2"] ["d1", "d2"]
      = (.ok (), []) :=
  update_noop_no_mutation updateEnvC4 "n" "f" ["d1", "d2"] rfl
    ⟨⟨"ds-1", "/dc1/datastore/ds-1"⟩, rfl⟩ ⟨["d1", "d2"], rfl⟩

/-- C3: an update whose desired disk list omits a previously observed disk
issues zero remote extend and zero remote remove calls — the shrink veto runs
before the addition loop, so a shrinking configuration never causes partial
remote mutation — and, whenever the preceding steps pass (lookups succeed,
rename and move either unneeded or successful), it fails with the
policy-violation error naming an omitted disk. -/
theorem update_shrink_rejected (env : UpdateEnv)
    (oldName newName oldFolder newFolder : String) (oldDisks newDisks : List String)
    (hShrink : ∃ v1 ∈ oldDisks, v1 ∉ newDisks) :
    countExtendCalls (resourceVSphereVmfsDatastoreUpdate env oldName newName
      oldFolder newFolder oldDisks newDisks).2 = 0 ∧
    countRemoveCalls (resourceVSphereVmfsDatastoreUpdate env oldName newName
      oldFolder newFolder oldDisks newDisks).2 = 0 ∧
    (env.hostDatastoreSystem = .ok () → (∃ ds, env.datastoreFromID = .ok ds) →
      (newName = oldName ∨ env.renameObject = .ok ()) →
      (newFolder = oldFolder ∨ env.moveDatastoreToFolder = .ok ()) →
      ∃ w, w ∈ oldDisks ∧ w ∉ newDisks ∧
        (resourceVSphereVmfsDatastoreUpdate env oldName newName
          oldFolder newFolder oldDisks newDisks).1
          = .err ("disk " ++ w ++ " found in state but not config (removal of disks is not supported)")) := by
  obtain ⟨v1, hv1, hnc⟩ := hShrink
  obtain ⟨w, hw⟩ : ∃ w, oldDisks.find? (fun v => ! newDisks.contains v) = some w := by
    rcases hf : oldDisks.find? (fun v => ! newDisks.contains v) with _ | w
    · rw [List.find?_eq_none] at hf
      exact absurd (by simp [hnc]) (hf v1 hv1)
    · exact ⟨w, rfl⟩
  have hwmem : w ∈ oldDisks := List.mem_of_find?_eq_some hw
  have hwnc : w ∉ newDisks := by
    have := List.find?_some hw
    simpa using this
  have hw2 : oldDisks.find? (fun v => ! decide (v ∈ newDisks)) = some w := by
    simpa using hw
  rcases hh : env.hostDatastoreSystem with e | u
  · simp [resourceVSphereVmfsDatastoreUpdate, hh, countExtendCalls, countRemoveCalls]
  · rcases hd : env.datastoreFromID with e | ds
    · simp [resourceVSphereVmfsDatastoreUpdate, hh, hd, countExtendCalls, countRemoveCalls]
    · by_cases hnm : newName = oldName
      · by_cases hfo : newFolder = oldFolder
        · refine ⟨?_, ?_, fun _ _ _ _ => ⟨w, hwmem, hwnc, ?_⟩⟩ <;>
            simp [resourceVSphereVmfsDatastoreUpdate, hh, hd, hnm, hfo, hw2,
              countExtendCalls, countRemoveCalls]
        · rcases hm : env.moveDatastoreToFolder with e | mu
          · refine ⟨?_, ?_, ?_⟩ <;>
              simp [resourceVSphereVmfsDatastoreUpdate, hh, hd, hnm, hfo, hm,
                countExtendCalls, countRemoveCalls]
          · refine ⟨?_, ?_, fun _ _ _ _ => ⟨w, hwmem, hwnc, ?_⟩⟩ <;>
              simp [resourceVSphereVmfsDatastoreUpdate, hh, hd, hnm, hfo, hm, hw2,
                countExtendCalls, countRemoveCalls]
      · rcases hr : env.renameObject with e | ru
        · refine ⟨?_, ?_, ?_⟩ <;>
            simp [resourceVSphereVmfsDatastoreUpdate, hh, hd, hnm, hr,
              countExtendCalls, countRemoveCalls]
        · by_cases hfo : newFolder = oldFolder
          · refine ⟨?_, ?_, fun _ _ _ _ => ⟨w, hwmem, hwnc, ?_⟩⟩ <;>
              simp [resourceVSphereVmfsDatastoreUpdate, hh, hd, hnm, hr, hfo, hw2,
                countExtendCalls, countRemoveCalls]
          · rcases hm : env.moveDatastoreToFolder with e | mu
            · refine ⟨?_, ?_, ?_⟩ <;>
                simp [resourceVSphereVmfsDatastoreUpdate, hh, hd, hnm, hr, hfo, hm,
                  countExtendCalls, countRemoveCalls]
            · refine ⟨?_, ?_, fun _ _ _ _ => ⟨w, hwmem, hwnc, ?_⟩⟩ <;>
                simp [resourceVSphereVmfsDatastoreUpdate, hh, hd, hnm, hr, hfo, hm, hw2,
                  countExtendCalls, countRemoveCalls]

/-- An update environment for the shrink veto. -/
def updateEnvC3 : UpdateEnv :=
  { updateEnvC4 with renameObject := .ok (), moveDatastoreToFolder := .ok () }

/-- Witness for C3: dropping disk "d2" from the configured list fails with the
policy-violation error naming it, with zero extend and remove calls. -/
theorem update_shrink_rejected_witness :
    countExtendCalls (resourceVSphereVmfsDatastoreUpdate updateEnvC3 "n" "n2" "f" "g"
      ["d1", "d2"] ["d1"]).2 = 0 ∧
    countRemoveCalls (resourceVSphereVmfsDatastoreUpdate updateEnvC3 "n" "n2" "f" "g"
      ["d1", "d2"] ["d1"]).2 = 0 ∧
    ∃ w, w ∈ ["d1", "d2"] ∧ w ∉ ["d1"] ∧
      (resourceVSphereVmfsDatastoreUpdate updateEnvC3 "n" "n2" "f" "g" ["d1", "d2"] ["d1"]).1
        = .err ("disk " ++ w ++ " found in state but not config (removal of disks is not supported)") := by
  obtain ⟨h1, h2, h3⟩ := update_shrink_rejected updateEnvC3 "n" "n2" "f" "g" ["d1", "d2"] ["d1"]
    ⟨"d2", by decide, by decide⟩
  exact ⟨h1, h2, h3 rfl ⟨⟨"ds-1", "/dc1/datastore/ds-1"⟩, rfl⟩ (Or.inr rfl) (Or.inr rfl)⟩

/-! ## Claim theorems: deletion (C5, C6) -/

/-- C5: each tick of the deletion retry loop invokes the removal primitive: a
resource-in-use failure keeps the loop pending (the error is absorbed, the loop
goes on to the next tick); any other failure stops the loop in the error state
with that error; success completes it.  Still pending when the bounded timeout
(the fuel) elapses, the delete reports failure. -/
theorem delete_retry_loop_behavior (env : DeleteEnv) :
    (∀ k fuel e, env.removeDatastore k = .error e → isResourceInUseError e = true →
      waitForState (deleteRetryFunc env) retryDeleteCompleted k (fuel + 1)
        = ((waitForState (deleteRetryFunc env) retryDeleteCompleted (k + 1) fuel).1,
          (waitForState (deleteRetryFunc env) retryDeleteCompleted (k + 1) fuel).2 + 1)) ∧
    (∀ k fuel e, env.removeDatastore k = .error e → isResourceInUseError e = false →
      waitForState (deleteRetryFunc env) retryDeleteCompleted k (fuel + 1) = (.errored e, 1)) ∧
    (∀ k fuel, env.removeDatastore k = .ok () →
      waitForState (deleteRetryFunc env) retryDeleteCompleted k (fuel + 1) = (.completed, 1)) ∧
    (env.hostDatastoreSystem = .ok () → (∃ ds, env.datastoreFromID = .ok ds) →
      (∀ k, ∃ m, env.removeDatastore k = .error (.resourceInUse m)) →
      resourceVSphereVmfsDatastoreDelete env
        = (.err ("could not delete datastore: " ++ waiterTimeoutMsg), env.retryFuel, 0)) := by
  refine ⟨?_, ?_, ?_, ?_⟩
  · intro k fuel e he hu
    have hne : retryDeletePending ≠ retryDeleteCompleted := by decide
    simp [waitForState, deleteRetryFunc, he, hu, hne]
  · intro k fuel e he hu
    simp [waitForState, deleteRetryFunc, he, hu]
  · intro k fuel hok
    simp [waitForState, deleteRetryFunc, hok]
  · intro hHost hFetch hBusy
    obtain ⟨ds, hds⟩ := hFetch
    have hloop : deleteRetryLoop env = (.timedOut, env.retryFuel) := by
      apply waitForState_timeout
      intro k
      obtain ⟨m, hm⟩ := hBusy k
      constructor
      · simp [deleteRetryFunc, hm, isResourceInUseError]
      · simp [deleteRetryFunc, hm, isResourceInUseError]
        decide
    simp [resourceVSphereVmfsDatastoreDelete, hHost, hds, hloop]

/-- A delete environment whose removal primitive is forever busy. -/
def deleteEnvC5 : DeleteEnv :=
  { hostDatastoreSystem := .ok ()
    datastoreFromID := .ok ⟨"ds-1", "/dc1/datastore/ds-1"⟩
    removeDatastore := fun _ => .error (.resourceInUse "busy")
    datastoreFromIDWait := fun _ => .error (.notFound "gone")
    retryFuel := 4
    waitFuel := 4 }

/-- Witness for C5: with a forever-busy removal primitive the retry loop stays
pending each tick, exhausts its fuel, and the delete reports the timeout
failure. -/
theorem delete_retry_loop_behavior_witness :
    waitForState (deleteRetryFunc deleteEnvC5) retryDeleteCompleted 0 4
      = ((waitForState (deleteRetryFunc deleteEnvC5) retryDeleteCompleted 1 3).1,
        (waitForState (deleteRetryFunc deleteEnvC5) retryDeleteCompleted 1 3).2 + 1) ∧
    resourceVSphereVmfsDatastoreDelete deleteEnvC5
      = (.err ("could not delete datastore: " ++ waiterTimeoutMsg), 4, 0) :=
  ⟨(delete_retry_loop_behavior deleteEnvC5).1 0 3 (.resourceInUse "busy") rfl rfl,
    (delete_retry_loop_behavior deleteEnvC5).2.2.2 rfl ⟨⟨"ds-1", "/dc1/datastore/ds-1"⟩, rfl⟩
      (fun _ => ⟨"busy", rfl⟩)⟩

/-- C6: each tick of the deletion wait-for-invisibility loop fetches the object
by identifier: a not-found fetch failure completes the loop; any other fetch
failure stops it in the error state with that error; a successful fetch (the
object is still visible) keeps it pending for the next tick.  The delete as a
whole succeeds exactly when the lookups succeed and both loops complete. -/
theorem delete_wait_loop_behavior (env : DeleteEnv) :
    (∀ k fuel e, env.datastoreFromIDWait k = .error e → isManagedObjectNotFoundError e = true →
      waitForState (waitForDeleteFunc env) waitForDeleteCompleted k (fuel + 1) = (.completed, 1)) ∧
    (∀ k fuel e, env.datastoreFromIDWait k = .error e → isManagedObjectNotFoundError e = false →
      waitForState (waitForDeleteFunc env) waitForDeleteCompleted k (fuel + 1) = (.errored e, 1)) ∧
    (∀ k fuel ds, env.datastoreFromIDWait k = .ok ds →
      waitForState (waitForDeleteFunc env) waitForDeleteCompleted k (fuel + 1)
        = ((waitForState (waitForDeleteFunc env) waitForDeleteCompleted (k + 1) fuel).1,
          (waitForState (waitForDeleteFunc env) waitForDeleteCompleted (k + 1) fuel).2 + 1)) ∧
    ((resourceVSphereVmfsDatastoreDelete env).1 = .ok () ↔
      env.hostDatastoreSystem = .ok () ∧ (∃ ds, env.datastoreFromID = .ok ds) ∧
        (deleteRetryLoop env).1 = .completed ∧ (waitForDeleteLoop env).1 = .completed) := by
  refine ⟨?_, ?_, ?_, ?_⟩
  · intro k fuel e he hn
    simp [waitForState, waitForDeleteFunc, he, hn]
  · intro k fuel e he hn
    simp [waitForState, waitForDeleteFunc, he, hn]
  · intro k fuel ds hok
    have hne : waitForDeletePending ≠ waitForDeleteCompleted := by decide
    simp [waitForState, waitForDeleteFunc, hok, hne]
  · constructor
    · intro hok
      rcases hh : env.hostDatastoreSystem with e | u
      · simp [resourceVSphereVmfsDatastoreDelete, hh] at hok
      · cases u
        rcases hd : env.datastoreFromID with e | ds
        · simp [resourceVSphereVmfsDatastoreDelete, hh, hd] at hok
        · rcases h1 : deleteRetryLoop env with ⟨r1, n1⟩
          rcases r1 with _ | e1 | _
          · rcases h2 : waitForDeleteLoop env with ⟨r2, n2⟩
            rcases r2 with _ | e2 | _
            · exact ⟨rfl, ⟨ds, rfl⟩, by simp [h1], by simp [h2]⟩
            · simp [resourceVSphereVmfsDatastoreDelete, hh, hd, h1, h2] at hok
            · simp [resourceVSphereVmfsDatastoreDelete, hh, hd, h1, h2] at hok
          · simp [resourceVSphereVmfsDatastoreDelete, hh, hd, h1] at hok
          · simp [resourceVSphereVmfsDatastoreDelete, hh, hd, h1] at hok
    · rintro ⟨hh, ⟨ds, hd⟩, hr, hw⟩
      rcases h1 : deleteRetryLoop env with ⟨r1, n1⟩
      rcases h2 : waitForDeleteLoop env with ⟨r2, n2⟩
      rw [h1] at hr
      rw [h2] at hw
      simp at hr hw
      subst hr
      subst hw
      simp [resourceVSphereVmfsDatastoreDelete, hh, hd, h1, h2]

/-- A delete environment that converges: busy twice, then removed; visible
twice, then gone. -/
def deleteEnvC6 : DeleteEnv :=
  { hostDatastoreSystem := .ok ()
    datastoreFromID := .ok ⟨"ds-1", "/dc1/datastore/ds-1"⟩
    removeDatastore := fun k => if k < 2 then .error (.resourceInUse "busy") else .ok ()
    datastoreFromIDWait := fun k =>
      if k < 2 then .ok ⟨"ds-1", "/dc1/datastore/ds-1"⟩ else .error (.notFound "gone")
    retryFuel := 5
    waitFuel := 5 }

/-- Witness for C6: a still-visible tick stays pending, a not-found tick
completes, and the delete's success coincides with both loops completing. -/
theorem delete_wait_loop_behavior_witness :
    waitForState (waitForDeleteFunc deleteEnvC6) waitForDeleteCompleted 2 3 = (.completed, 1) ∧
    ((resourceVSphereVmfsDatastoreDelete deleteEnvC6).1 = .ok () ↔
      deleteEnvC6.hostDatastoreSystem = .ok () ∧
        (∃ ds, deleteEnvC6.datastoreFromID = .ok ds) ∧
        (deleteRetryLoop deleteEnvC6).1 = .completed ∧
        (waitForDeleteLoop deleteEnvC6).1 = .completed) :=
  ⟨(delete_wait_loop_behavior deleteEnvC6).1 2 2 (.notFound "gone") rfl rfl,
    (delete_wait_loop_behavior deleteEnvC6).2.2.2⟩

/-! ## Claim theorems: creation (C1, C2) -/

/-- The dangling-resource extension format contains the extension error. -/
theorem formatUpdate_contains_errExtend (d a b : String) :
    strContains (formatVmfsDatastoreCreateRollbackErrorUpdate d a b) a := by
  unfold formatVmfsDatastoreCreateRollbackErrorUpdate
  apply strContains_extendRight
  apply strContains_extendRight
  apply strContains_extendRight
  apply strContains_extendRight
  apply strContains_extendRight
  exact strContains_takeRight _ _

/-- The dangling-resource extension format contains the removal error. -/
theorem formatUpdate_contains_errRem (d a b : String) :
    strContains (formatVmfsDatastoreCreateRollbackErrorUpdate d a b) b := by
  unfold formatVmfsDatastoreCreateRollbackErrorUpdate
  apply strContains_extendRight
  apply strContains_extendRight
  apply strContains_extendRight
  exact strContains_takeRight _ _

/-- The dangling-resource extension format contains the warning line. -/
theorem formatUpdate_contains_warning (d a b : String) :
    strContains (formatVmfsDatastoreCreateRollbackErrorUpdate d a b) danglingWarning := by
  unfold formatVmfsDatastoreCreateRollbackErrorUpdate
  apply strContains_extendRight
  apply strContains_extendRight
  apply strContains_extendRight
  apply strContains_extendRight
  apply strContains_extendRight
  apply strContains_extendRight
  apply strContains_extendRight
  apply strContains_extendRight
  apply strContains_extendRight
  exact strContains_takeRight _ _

/-- The dangling-resource extension format contains the manual-cleanup line. -/
theorem formatUpdate_contains_cleanup (d a b : String) :
    strContains (formatVmfsDatastoreCreateRollbackErrorUpdate d a b) manualCleanup := by
  unfold formatVmfsDatastoreCreateRollbackErrorUpdate
  apply strContains_extendRight
  exact strContains_takeRight _ _

/-- A message of the shape `p ++ quoteGo d ++ t ++ m` contains `d`. -/
theorem strContains_quoted_mid (p d t m : String) :
    strContains (p ++ quoteGo d ++ t ++ m) d :=
  strContains_trans _ (quoteGo d) _
    (strContains_extendRight _ _ _ (strContains_extendRight _ _ _ (strContains_takeRight _ _)))
    (strContains_quoteGo d)

/-- C1: in a multi-disk creation where handling the Nth disk (N > 1) fails —
at extend-spec resolution or at the remote extend call — the outcome is
two-valued: if the compensating removal succeeds, an error naming the failed
disk is returned and no datastore remains; if the compensating removal also
fails, the returned error text contains both the extension error and the
removal error, the dangling-resource warning and the manual-cleanup
instruction, and the datastore remains dangling. -/
theorem create_extend_failure_atomic (env : CreateEnv) (nm folder d0 : String)
    (s0 : DiskSpec) (ds : DatastoreRef) (pre post : List String) (dN : String) (e : RemoteError)
    (hHost : env.hostDatastoreSystem = .ok ())
    (hSpec0 : env.diskSpecForCreate d0 = .ok s0)
    (hCreate : env.createVmfsDatastore { s0 with vmfsVolumeName := nm } = .ok ds)
    (hMove : pathIsEmpty folder = true ∨ env.moveDatastoreToFolder = .ok ())
    (hPre : ∀ d ∈ pre, ∃ s, env.diskSpecForExtend d = .ok s ∧ env.extendVmfsDatastore s = .ok ())
    (hFail : env.diskSpecForExtend dN = .error e ∨
      ∃ s, env.diskSpecForExtend dN = .ok s ∧ env.extendVmfsDatastore s = .error e) :
    (env.removeDatastore = .ok () →
      ∃ m, (resourceVSphereVmfsDatastoreCreate env nm folder (d0 :: (pre ++ dN :: post))).result
          = .err m ∧
        strContains m dN ∧
        (resourceVSphereVmfsDatastoreCreate env nm folder (d0 :: (pre ++ dN :: post))).dsExists
          = false) ∧
    (∀ remErr, env.removeDatastore = .error remErr →
      (resourceVSphereVmfsDatastoreCreate env nm folder (d0 :: (pre ++ dN :: post))).result
        = .err (formatVmfsDatastoreCreateRollbackErrorUpdate dN e.msg remErr.msg) ∧
      strContains (formatVmfsDatastoreCreateRollbackErrorUpdate dN e.msg remErr.msg) e.msg ∧
      strContains (formatVmfsDatastoreCreateRollbackErrorUpdate dN e.msg remErr.msg) remErr.msg ∧
      strContains (formatVmfsDatastoreCreateRollbackErrorUpdate dN e.msg remErr.msg) danglingWarning ∧
      strContains (formatVmfsDatastoreCreateRollbackErrorUpdate dN e.msg remErr.msg) manualCleanup ∧
      (resourceVSphereVmfsDatastoreCreate env nm folder (d0 :: (pre ++ dN :: post))).dsExists
        = true) := by
  obtain ⟨mc, hmc⟩ : ∃ mc, createMoveStep env folder = ⟨.ok (), mc, true⟩ := by
    by_cases hpe : pathIsEmpty folder = true
    · exact ⟨[], by simp [createMoveStep, hpe]⟩
    · rcases hMove with h | h
      · exact absurd h hpe
      · exact ⟨[.moveCall], by simp [createMoveStep, hpe, h]⟩
  have hcreateEq : resourceVSphereVmfsDatastoreCreate env nm folder (d0 :: (pre ++ dN :: post)) =
      ⟨(createFinish env (pre ++ dN :: post)).result,
        .createCall :: (mc ++ (createFinish env (pre ++ dN :: post)).calls),
        (createFinish env (pre ++ dN :: post)).dsExists⟩ := by
    simp [resourceVSphereVmfsDatastoreCreate, hHost, hSpec0, hCreate, hmc]
  have hloopAppend := createExtendLoop_append_ok env pre (dN :: post) hPre
  constructor
  · intro hrem
    rcases hFail with hspec | ⟨s, hs, hex⟩
    · have hL : createExtendLoop env (dN :: post)
          = ⟨.err ("error fetching datastore extend spec for disk " ++ quoteGo dN ++ ": " ++ e.msg),
            [.removeCall], false⟩ := by
        simp [createExtendLoop, hspec, hrem]
      refine ⟨"error fetching datastore extend spec for disk " ++ quoteGo dN ++ ": " ++ e.msg,
        ?_, ?_, ?_⟩
      · rw [hcreateEq]
        simp [createFinish, hloopAppend, hL]
      · exact strContains_quoted_mid _ _ _ _
      · rw [hcreateEq]
        simp [createFinish, hloopAppend, hL]
    · have hL : createExtendLoop env (dN :: post)
          = ⟨.err ("error extending datastore with disk " ++ quoteGo dN ++ ": " ++ e.msg),
            [.extendCall dN, .removeCall], false⟩ := by
        simp [createExtendLoop, hs, hex, hrem]
      refine ⟨"error extending datastore with disk " ++ quoteGo dN ++ ": " ++ e.msg, ?_, ?_, ?_⟩
      · rw [hcreateEq]
        simp [createFinish, hloopAppend, hL]
      · exact strContains_quoted_mid _ _ _ _
      · rw [hcreateEq]
        simp [createFinish, hloopAppend, hL]
  · intro remErr hrem
    rcases hFail with hspec | ⟨s, hs, hex⟩
    · have hL : createExtendLoop env (dN :: post)
          = ⟨.err (formatVmfsDatastoreCreateRollbackErrorUpdate dN e.msg remErr.msg),
            [.removeCall], true⟩ := by
        simp [createExtendLoop, hspec, hrem]
      refine ⟨?_, formatUpdate_contains_errExtend _ _ _, formatUpdate_contains_errRem _ _ _,
        formatUpdate_contains_warning _ _ _, formatUpdate_contains_cleanup _ _ _, ?_⟩
      · rw [hcreateEq]
        simp [createFinish, hloopAppend, hL]
      · rw [hcreateEq]
        simp [createFinish, hloopAppend, hL]
    · have hL : createExtendLoop env (dN :: post)
          = ⟨.err (formatVmfsDatastoreCreateRollbackErrorUpdate dN e.msg remErr.msg),
            [.extendCall dN, .removeCall], true⟩ := by
        simp [createExtendLoop, hs, hex, hrem]
      refine ⟨?_, formatUpdate_contains_errExtend _ _ _, formatUpdate_contains_errRem _ _ _,
        formatUpdate_contains_warning _ _ _, formatUpdate_contains_cleanup _ _ _, ?_⟩
      · rw [hcreateEq]
        simp [createFinish, hloopAppend, hL]
      · rw [hcreateEq]
        simp [createFinish, hloopAppend, hL]

/-- A create environment whose extension of disk "d2" fails remotely and whose
compensating removal succeeds. -/
def createEnvC1 : CreateEnv :=
  { hostDatastoreSystem := .ok ()
    diskSpecForCreate := fun d => .ok ⟨d, ""⟩
    createVmfsDatastore := fun _ => .ok ⟨"ds-1", "/dc1/datastore/ds-1"⟩
    moveDatastoreToFolder := .error (.other "unused")
    diskSpecForExtend := fun d => .ok ⟨d, ""⟩
    extendVmfsDatastore := fun s => if s.diskName = "d2" then .error (.other "extboom") else .ok ()
    removeDatastore := .ok ()
    readEnv := ⟨.ok ⟨"ds-1", "/dc1/datastore/ds-1"⟩, .ok ⟨"VMFS", .vmfs ["d1"], ["h1"]⟩,
      .ok (), .ok "f", .ok ()⟩ }

/-- Witness for C1: a two-disk creation failing on disk "d2" with a successful
removal returns an error naming "d2" and leaves no datastore. -/
theorem create_extend_failure_atomic_witness :
    ∃ m, (resourceVSphereVmfsDatastoreCreate createEnvC1 "n" "" ("d1" :: ([] ++ "d2" :: []))).result
        = .err m ∧
      strContains m "d2" ∧
      (resourceVSphereVmfsDatastoreCreate createEnvC1 "n" "" ("d1" :: ([] ++ "d2" :: []))).dsExists
        = false :=
  (create_extend_failure_atomic createEnvC1 "n" "" "d1" ⟨"d1", ""⟩ ⟨"ds-1", "/dc1/datastore/ds-1"⟩
    [] [] "d2" (.other "extboom") rfl rfl rfl (Or.inl (by decide)) (by simp)
    (Or.inr ⟨⟨"d2", ""⟩, rfl, rfl⟩)).1 rfl

/-- C2 (amended): once the initial remote create call succeeds, the
folder-move, extend-spec-resolution, and remote-extend failure paths each
attempt exactly one compensating removal before surfacing their error, and the
surfaced error distinguishes the single-failure tier (the plain step error)
from the double-failure tier (the dangling-resource format embedding both
errors); the final read-back failure path, however, surfaces the read error
with zero compensating removals. -/
theorem create_rollback_tiers (env : CreateEnv) (nm folder d0 : String)
    (s0 : DiskSpec) (ds : DatastoreRef) (rest : List String)
    (hHost : env.hostDatastoreSystem = .ok ())
    (hSpec0 : env.diskSpecForCreate d0 = .ok s0)
    (hCreate : env.createVmfsDatastore { s0 with vmfsVolumeName := nm } = .ok ds) :
    (∀ e, pathIsEmpty folder = false → env.moveDatastoreToFolder = .error e →
      countRemoveCalls (resourceVSphereVmfsDatastoreCreate env nm folder (d0 :: rest)).calls = 1 ∧
      (env.removeDatastore = .ok () →
        (resourceVSphereVmfsDatastoreCreate env nm folder (d0 :: rest)).result
          = .err ("could not move datastore to folder " ++ quoteGo folder ++ ": " ++ e.msg)) ∧
      (∀ remErr, env.removeDatastore = .error remErr →
        (resourceVSphereVmfsDatastoreCreate env nm folder (d0 :: rest)).result
          = .err (formatVmfsDatastoreCreateRollbackErrorFolder folder e.msg remErr.msg))) ∧
    (∀ pre dN post e, rest = pre ++ dN :: post →
      (pathIsEmpty folder = true ∨ env.moveDatastoreToFolder = .ok ()) →
      (∀ d ∈ pre, ∃ s, env.diskSpecForExtend d = .ok s ∧ env.extendVmfsDatastore s = .ok ()) →
      (env.diskSpecForExtend dN = .error e ∨
        ∃ s, env.diskSpecForExtend dN = .ok s ∧ env.extendVmfsDatastore s = .error e) →
      countRemoveCalls (resourceVSphereVmfsDatastoreCreate env nm folder (d0 :: rest)).calls = 1 ∧
      (∀ remErr, env.removeDatastore = .error remErr →
        (resourceVSphereVmfsDatastoreCreate env nm folder (d0 :: rest)).result
          = .err (formatVmfsDatastoreCreateRollbackErrorUpdate dN e.msg remErr.msg)) ∧
      (env.removeDatastore = .ok () →
        (env.diskSpecForExtend dN = .error e →
          (resourceVSphereVmfsDatastoreCreate env nm folder (d0 :: rest)).result
            = .err ("error fetching datastore extend spec for disk " ++ quoteGo dN ++ ": " ++ e.msg)) ∧
        (∀ s, env.diskSpecForExtend dN = .ok s → env.extendVmfsDatastore s = .error e →
          (resourceVSphereVmfsDatastoreCreate env nm folder (d0 :: rest)).result
            = .err ("error extending datastore with disk " ++ quoteGo dN ++ ": " ++ e.msg)))) ∧
    (∀ m, (pathIsEmpty folder = true ∨ env.moveDatastoreToFolder = .ok ()) →
      (∀ d ∈ rest, ∃ s, env.diskSpecForExtend d = .ok s ∧ env.extendVmfsDatastore s = .ok ()) →
      resourceVSphereVmfsDatastoreRead env.readEnv = .err m →
      (resourceVSphereVmfsDatastoreCreate env nm folder (d0 :: rest)).result = .err m ∧
      countRemoveCalls (resourceVSphereVmfsDatastoreCreate env nm folder (d0 :: rest)).calls = 0) := by
  refine ⟨?_, ?_, ?_⟩
  · intro e hpe hmv
    refine ⟨?_, ?_, ?_⟩
    · cases hrem : env.removeDatastore with
      | error remErr =>
        have hms : createMoveStep env folder
            = ⟨.err (formatVmfsDatastoreCreateRollbackErrorFolder folder e.msg remErr.msg),
              [.moveCall, .removeCall], true⟩ := by
          simp [createMoveStep, hpe, hmv, hrem]
        have hcr : resourceVSphereVmfsDatastoreCreate env nm folder (d0 :: rest)
            = ⟨.err (formatVmfsDatastoreCreateRollbackErrorFolder folder e.msg remErr.msg),
              [.createCall, .moveCall, .removeCall], true⟩ := by
          simp [resourceVSphereVmfsDatastoreCreate, hHost, hSpec0, hCreate, hms]
        simp [hcr, countRemoveCalls]
      | ok u =>
        have hms : createMoveStep env folder
            = ⟨.err ("could not move datastore to folder " ++ quoteGo folder ++ ": " ++ e.msg),
              [.moveCall, .removeCall], false⟩ := by
          simp [createMoveStep, hpe, hmv, hrem]
        have hcr : resourceVSphereVmfsDatastoreCreate env nm folder (d0 :: rest)
            = ⟨.err ("could not move datastore to folder " ++ quoteGo folder ++ ": " ++ e.msg),
              [.createCall, .moveCall, .removeCall], false⟩ := by
          simp [resourceVSphereVmfsDatastoreCreate, hHost, hSpec0, hCreate, hms]
        simp [hcr, countRemoveCalls]
    · intro hrem
      have hms : createMoveStep env folder
          = ⟨.err ("could not move datastore to folder " ++ quoteGo folder ++ ": " ++ e.msg),
            [.moveCall, .removeCall], false⟩ := by
        simp [createMoveStep, hpe, hmv, hrem]
      have hcr : resourceVSphereVmfsDatastoreCreate env nm folder (d0 :: rest)
          = ⟨.err ("could not move datastore to folder " ++ quoteGo folder ++ ": " ++ e.msg),
            [.createCall, .moveCall, .removeCall], false⟩ := by
        simp [resourceVSphereVmfsDatastoreCreate, hHost, hSpec0, hCreate, hms]
      simp [hcr]
    · intro remErr hrem
      have hms : createMoveStep env folder
          = ⟨.err (formatVmfsDatastoreCreateRollbackErrorFolder folder e.msg remErr.msg),
            [.moveCall, .removeCall], true⟩ := by
        simp [createMoveStep, hpe, hmv, hrem]
      have hcr : resourceVSphereVmfsDatastoreCreate env nm folder (d0 :: rest)
          = ⟨.err (formatVmfsDatastoreCreateRollbackErrorFolder folder e.msg remErr.msg),
            [.createCall, .moveCall, .removeCall], true⟩ := by
        simp [resourceVSphereVmfsDatastoreCreate, hHost, hSpec0, hCreate, hms]
      simp [hcr]
  · intro pre dN post e hrest hMove hPreOk hFail
    subst hrest
    obtain ⟨mc, hmc, hmcn⟩ :
        ∃ mc, createMoveStep env folder = ⟨.ok (), mc, true⟩ ∧ countRemoveCalls mc = 0 := by
      by_cases hpe : pathIsEmpty folder = true
      · exact ⟨[], by simp [createMoveStep, hpe], rfl⟩
      · rcases hMove with h | h
        · exact absurd h hpe
        · exact ⟨[.moveCall], by simp [createMoveStep, hpe, h], rfl⟩
    have hcreateEq : resourceVSphereVmfsDatastoreCreate env nm folder (d0 :: (pre ++ dN :: post)) =
        ⟨(createFinish env (pre ++ dN :: post)).result,
          .createCall :: (mc ++ (createFinish env (pre ++ dN :: post)).calls),
          (createFinish env (pre ++ dN :: post)).dsExists⟩ := by
      simp [resourceVSphereVmfsDatastoreCreate, hHost, hSpec0, hCreate, hmc]
    have hloopAppend := createExtendLoop_append_ok env pre (dN :: post) hPreOk
    refine ⟨?_, ?_, ?_⟩
    · cases hrem : env.removeDatastore with
      | error remErr =>
        rcases hFail with hspec | ⟨s, hs, hex⟩
        · have hL : createExtendLoop env (dN :: post)
              = ⟨.err (formatVmfsDatastoreCreateRollbackErrorUpdate dN e.msg remErr.msg),
                [.removeCall], true⟩ := by
            simp [createExtendLoop, hspec, hrem]
          rw [hcreateEq]
          simp [createFinish, hloopAppend, hL, countRemoveCalls, countRemoveCalls_append,
            countRemoveCalls_map_extend, hmcn]
        · have hL : createExtendLoop env (dN :: post)
              = ⟨.err (formatVmfsDatastoreCreateRollbackErrorUpdate dN e.msg remErr.msg),
                [.extendCall dN, .removeCall], true⟩ := by
            simp [createExtendLoop, hs, hex, hrem]
          rw [hcreateEq]
          simp [createFinish, hloopAppend, hL, countRemoveCalls, countRemoveCalls_append,
            countRemoveCalls_map_extend, hmcn]
      | ok u =>
        rcases hFail with hspec | ⟨s, hs, hex⟩
        · have hL : createExtendLoop env (dN :: post)
              = ⟨.err ("error fetching datastore extend spec for disk " ++ quoteGo dN ++ ": " ++ e.msg),
                [.removeCall], false⟩ := by
            simp [createExtendLoop, hspec, hrem]
          rw [hcreateEq]
          simp [createFinish, hloopAppend, hL, countRemoveCalls, countRemoveCalls_append,
            countRemoveCalls_map_extend, hmcn]
        · have hL : createExtendLoop env (dN :: post)
              = ⟨.err ("error extending datastore with disk " ++ quoteGo dN ++ ": " ++ e.msg),
                [.extendCall dN, .removeCall], false⟩ := by
            simp [createExtendLoop, hs, hex, hrem]
          rw [hcreateEq]
          simp [createFinish, hloopAppend, hL, countRemoveCalls, countRemoveCalls_append,
            countRemoveCalls_map_extend, hmcn]
    · intro remErr hrem
      rcases hFail with hspec | ⟨s, hs, hex⟩
      · have hL : createExtendLoop env (dN :: post)
            = ⟨.err (formatVmfsDatastoreCreateRollbackErrorUpdate dN e.msg remErr.msg),
              [.removeCall], true⟩ := by
          simp [createExtendLoop, hspec, hrem]
        rw [hcreateEq]
        simp [createFinish, hloopAppend, hL]
      · have hL : createExtendLoop env (dN :: post)
            = ⟨.err (formatVmfsDatastoreCreateRollbackErrorUpdate dN e.msg remErr.msg),
              [.extendCall dN, .removeCall], true⟩ := by
          simp [createExtendLoop, hs, hex, hrem]
        rw [hcreateEq]
        simp [createFinish, hloopAppend, hL]
    · intro hrem
      constructor
      · intro hspec
        have hL : createExtendLoop env (dN :: post)
            = ⟨.err ("error fetching datastore extend spec for disk " ++ quoteGo dN ++ ": " ++ e.msg),
              [.removeCall], false⟩ := by
          simp [createExtendLoop, hspec, hrem]
        rw [hcreateEq]
        simp [createFinish, hloopAppend, hL]
      · intro s hs hex
        have hL : createExtendLoop env (dN :: post)
            = ⟨.err ("error extending datastore with disk " ++ quoteGo dN ++ ": " ++ e.msg),
              [.extendCall dN, .removeCall], false⟩ := by
          simp [createExtendLoop, hs, hex, hrem]
        rw [hcreateEq]
        simp [createFinish, hloopAppend, hL]
  · intro m hMove hAllOk hread
    obtain ⟨mc, hmc, hmcn⟩ :
        ∃ mc, createMoveStep env folder = ⟨.ok (), mc, true⟩ ∧ countRemoveCalls mc = 0 := by
      by_cases hpe : pathIsEmpty folder = true
      · exact ⟨[], by simp [createMoveStep, hpe], rfl⟩
      · rcases hMove with h | h
        · exact absurd h hpe
        · exact ⟨[.moveCall], by simp [createMoveStep, hpe, h], rfl⟩
    have hcreateEq : resourceVSphereVmfsDatastoreCreate env nm folder (d0 :: rest) =
        ⟨(createFinish env rest).result,
          .createCall :: (mc ++ (createFinish env rest).calls),
          (createFinish env rest).dsExists⟩ := by
      simp [resourceVSphereVmfsDatastoreCreate, hHost, hSpec0, hCreate, hmc]
    have hL : createExtendLoop env rest = ⟨.ok (), rest.map RemoteCall.extendCall, true⟩ := by
      have h2 := createExtendLoop_append_ok env rest [] hAllOk
      simpa [createExtendLoop] using h2
    have hfin : createFinish env rest = ⟨.err m, rest.map RemoteCall.extendCall, true⟩ := by
      simp [createFinish, hL, hread, GoResult.toUnit]
    rw [hcreateEq, hfin]
    simp [countRemoveCalls, countRemoveCalls_append, countRemoveCalls_map_extend, hmcn]

/-- A create environment whose post-create read-back fails (the datastore
fetched back is reported missing) while every other primitive succeeds. -/
def createEnvC2 : CreateEnv :=
  { hostDatastoreSystem := .ok ()
    diskSpecForCreate := fun d => .ok ⟨d, ""⟩
    createVmfsDatastore := fun _ => .ok ⟨"ds-1", "/dc1/datastore/ds-1"⟩
    moveDatastoreToFolder := .ok ()
    diskSpecForExtend := fun d => .ok ⟨d, ""⟩
    extendVmfsDatastore := fun _ => .ok ()
    removeDatastore := .ok ()
    readEnv := ⟨.error (.other "boom"), .ok ⟨"VMFS", .vmfs [], []⟩, .ok (), .ok "f", .ok ()⟩ }

/-- Counterexample to C2 as stated: after the remote create succeeded, the
final read-back fails, an error is surfaced — a failure path of the remaining
pipeline — yet zero compensating removals were attempted, and the datastore
remains. -/
theorem create_readback_no_rollback_cex :
    (resourceVSphereVmfsDatastoreCreate createEnvC2 "n" "" ["d1"]).result
      = .err ("cannot find datastore: boom") ∧
    countRemoveCalls (resourceVSphereVmfsDatastoreCreate createEnvC2 "n" "" ["d1"]).calls = 0 ∧
    (resourceVSphereVmfsDatastoreCreate createEnvC2 "n" "" ["d1"]).dsExists = true := by
  refine ⟨?_, ?_, ?_⟩ <;> decide

/-- Witness for C2 (amended): the read-back tier at a concrete environment —
the read error is surfaced with zero compensating removals. -/
theorem create_rollback_tiers_witness :
    (resourceVSphereVmfsDatastoreCreate createEnvC2 "n" "" ("d1" :: [])).result
      = .err "cannot find datastore: boom" ∧
    countRemoveCalls (resourceVSphereVmfsDatastoreCreate createEnvC2 "n" "" ("d1" :: [])).calls
      = 0 :=
  (create_rollback_tiers createEnvC2 "n" "" "d1" ⟨"d1", ""⟩ ⟨"ds-1", "/dc1/datastore/ds-1"⟩ []
    rfl rfl rfl).2.2 "cannot find datastore: boom" (Or.inl (by decide)) (by simp) (by decide)
